import Mathlib

/-!
Verification of the deployment orchestrator (cognitedata/function-action-oidc).

This file gives a shallow embedding, in Lean, of the parts of the repository
that the checked properties are about: the artifact-name derivation and the
entry-file name validation (src/utils.py), the deletion sequencer
(src/function.py, src/function_file.py), the retry loop and its boundary
(src/utils.py, src/orchestrator.py, src/function.py), the capability
verifier (src/access.py), the schedule-name scoping and schedule-file
parsing (src/config.py, src/configs.py), and the temporary working-directory
context manager (src/utils.py).

Remote I/O (the Cognite SDK client) is modelled by explicit state passing:
the remote project state is a pair of association lists (functions and
files keyed on external id), and remote calls that can fail take the
failure as an explicit parameter.  Python exceptions become an `Except`
over the `PyErr` type below; a raised exception is an `Except.error`
value propagating out of the translated control flow.

The repository mixes two generations of the same modules (for instance
`config.py` next to `configs.py`).  Where a definition comes from one
specific file this is noted at the definition.  One definition —
`await_poll` / `await_function_deployment` — is modelled from the spec
because the module that the final orchestrator calls into is not among
the sources; see its doc comment.
-/

namespace FnAction

/-- Exception model.  `functionDeployError`, `functionDeployTimeout` and
`missingAclError` come from src/exceptions.py (and, in the older module
generation, src/function.py:22-27); `cogniteAPIError` is the SDK's generic
remote-API error; `osError` stands for an `OSError` out of `os.chdir`;
`yamlError` for a `yaml.YAMLError` out of `yaml.safe_load`;
`validationError` for a pydantic `ValidationError`.  `missingAclError`
carries the credential name and the itemized list of missing capabilities
that `raise_on_missing` (src/access.py:162-166) renders into its message. -/
inductive PyErr where
  | functionDeployError (msg : String)
  | functionDeployTimeout (msg : String)
  | missingAclError (credType : String) (missing : List String)
  | cogniteAPIError (msg : String)
  | osError (msg : String)
  | yamlError (msg : String)
  | validationError (msg : String)
  deriving Repr, DecidableEq

/-- Python `pat in s` on strings: `pat` occurs contiguously in `s`. -/
def strContains (s pat : String) : Bool := decide (List.IsInfix pat.data s.data)

/-! ## Artifact-name derivation -/

/-- src/utils.py:39-40.  `function_name.replace("/", "-") + ".zip"`; the
pattern is the single character `/`, so Python's `str.replace` is the
character-wise map over the string. -/
def create_zipfile_name (function_name : String) : String :=
  String.mk (function_name.data.map fun c => if c = '/' then '-' else c) ++ ".zip"

/-- src/function.py:215-216, the older generation of the same derivation;
its body is identical to `create_zipfile_name`. -/
def get_file_name (function_name : String) : String :=
  String.mk (function_name.data.map fun c => if c = '/' then '-' else c) ++ ".zip"

/-! ## Entry-file name validation -/

/-- Python's `\w` character class, restricted to ASCII (every name the
claims and the repository's tests exercise is ASCII). -/
def isWordChar (c : Char) : Bool :=
  (decide ('a' ≤ c) && decide (c ≤ 'z')) || (decide ('A' ≤ c) && decide (c ≤ 'Z')) ||
    (decide ('0' ≤ c) && decide (c ≤ '9')) || c = '_'

/-- A character admitted by the class `[\w\- ]` of the `FnFileString`
pattern. -/
def isFnNameChar (c : Char) : Bool := isWordChar c || c = '-' || c = ' '

/-- src/utils.py:26 (`FnFileString`, regex `^[\w\- ]+\.(py|js)$`), the same
pattern that src/config.py:119 inlines for `FunctionConfig.function_file`:
one nonempty run of word characters, hyphens or spaces, then a literal dot
and one of the extensions `py` or `js`.  The whole string must match
(pydantic's `constr(regex=...)` anchors at the start and the pattern ends
in `$`), so the match succeeds exactly when the string splits as
`stem ++ "." ++ ext` with `ext ∈ {py, js}` and a nonempty all-admissible
`stem` (the class `[\w\- ]` contains neither `.` nor `/` nor `\`). -/
def fnFileStringMatches (s : String) : Bool :=
  let cs := s.data
  let stem := cs.take (cs.length - 3)
  let ext := cs.drop (cs.length - 3)
  (ext = ['.', 'p', 'y'] || ext = ['.', 'j', 's']) && !stem.isEmpty && stem.all isFnNameChar

/-! ## Schedule-name scoping (older module generation) -/

/-- One entry of the schedule YAML file as `yaml.safe_load` hands it to
`FunctionConfig.schedules` (src/config.py:182-189): each field may be
absent (`dict.get` returns `None`). -/
structure RawSchedule where
  name : Option String
  cron : Option String
  data : Option String
  deriving Repr, DecidableEq

/-- The name-scoping transform inside `FunctionConfig.schedules`
(src/config.py:185): the effective schedule name is the function's
external id, a colon, and the name given in the schedule file — or
`undefined-i` for the entry at index `i` when the name is missing. -/
def scoped_schedule_name (external_id : String) (i : Nat) (schedule : RawSchedule) : String :=
  external_id ++ ":" ++ schedule.name.getD ("undefined-" ++ toString i)

/-- src/config.py:175-189 (`FunctionConfig.schedules`), restricted to the
effective names it produces; cron validation is pydantic's concern and
orthogonal to the naming. -/
def schedule_names (external_id : String) (all_schedules : List RawSchedule) : List String :=
  all_schedules.enum.map fun p => scoped_schedule_name external_id p.1 p.2

/-! ## The retry loop and its boundary -/

/-- src/utils.py:96-112 (`_retry`), the loop behind the `retry` decorator
(src/utils.py:115-121) that wraps `upload_and_create_function` at
src/orchestrator.py:22.  `fn k` is the outcome of the k-th call of the
wrapped zero-argument closure; `exceptions e` is Python's
`except exceptions` test for the configured exception classes.  `tries`
counts down through `tries -= 1`; the loop guard `while tries:` treats 0
as exhausted, so a call with `tries = 0` never runs `fn` and falls out of
the loop returning nothing (Python: `None`), and once a caught exception
drops `tries` to 0 the loop re-raises that same exception with a bare
`raise`.  An exception not matched by `exceptions` propagates out of the
`try` at once.  The call sites under verification configure positive
try counts (`tries=2` at src/orchestrator.py:22, `tries=5` at
src/function.py:201); the sleeping and the delay/backoff/jitter
bookkeeping between attempts only shape real time and are not modelled. -/
def retryLoop (fn : Nat → Except PyErr α) (exceptions : PyErr → Bool) :
    Nat → Nat → Option (Except PyErr α)
  | 0, _ => none
  | tries + 1, k =>
    match fn k with
    | .ok a => some (.ok a)
    | .error e =>
      if exceptions e then
        if tries = 0 then some (.error e)
        else retryLoop fn exceptions tries (k + 1)
      else some (.error e)

/-- The retry filter configured at src/orchestrator.py:22:
`@retry(exceptions=FunctionDeployError, tries=2, ...)`.  Python's `except`
also matches subclasses; `FunctionDeployError` has none in the repository
(`MissingAclError` extends `ValueError` and `CogniteAPIError` is the SDK's
own class, so neither matches). -/
def isFunctionDeployError : PyErr → Bool
  | .functionDeployError _ => true
  | _ => false

/-- The creation-race marker tested at src/function.py:209. -/
def duplicatedMessage : String := "Function externalId duplicated"

/-- The except-clause of `upload_and_create_function`
(src/function.py:205-212): a `CogniteAPIError` whose message contains
`"Function externalId duplicated"` is re-raised as
`FunctionDeployError(e.message)` so that the sequence-level retry
triggers; every other `CogniteAPIError` is re-raised unchanged, and any
other exception never enters this handler. -/
def convert_creation_error (e : PyErr) : PyErr :=
  match e with
  | .cogniteAPIError m =>
      if strContains m duplicatedMessage then .functionDeployError m else e
  | _ => e

/-- The retried whole sequence: `upload_and_create_function`
(src/orchestrator.py:22-36) as seen by the retry loop.  `rawAttempt k` is
the outcome of the k-th run of the delete-package-upload-create-await
body before the creation-error conversion of src/function.py:205-212 is
applied to its failures; the decorator then retries on
`FunctionDeployError` only, for the configured number of tries. -/
def upload_and_create_function (rawAttempt : Nat → Except PyErr α) (tries : Nat) :
    Option (Except PyErr α) :=
  retryLoop
    (fun k =>
      match rawAttempt k with
      | .ok a => .ok a
      | .error e => .error (convert_creation_error e))
    isFunctionDeployError tries 0

/-! ## Capability verifier (src/access.py) -/

/-- The scope dictionary of a capability, observed through the three
predicates the verifier uses (src/access.py:40-47): membership of the
key `"all"`, and the id lists under `datasetScope` and `idScope`. -/
structure Scope where
  all : Bool
  datasetScopeIds : List Int
  idScopeIds : List Int
  deriving Repr, DecidableEq

/-- src/access.py:29-38 (`Capability`): one granted permission record. -/
structure Capability where
  acl : String
  actions : List String
  scope : Scope
  deriving Repr, DecidableEq

/-- src/access.py:40-41. -/
def Capability.is_all_scope (c : Capability) : Bool := c.scope.all

/-- src/access.py:43-44. -/
def Capability.is_dataset_scope (c : Capability) (id : Int) : Bool :=
  c.scope.datasetScopeIds.contains id

/-- src/access.py:46-47. -/
def Capability.is_ids_scope (c : Capability) (id : Int) : Bool :=
  c.scope.idScopeIds.contains id

/-- src/access.py:59-60. -/
def filter_capabilities (capabs : List Capability) (acl : String) : List Capability :=
  capabs.filter fun c => c.acl == acl

/-- The action set `set(a for c in filter_capabilities(capabs, acl) for a in
c.actions)` used throughout src/access.py:84-97; Python builds a set, this
embedding keeps the list — only membership is consumed. -/
def aclActions (capabs : List Capability) (acl : String) : List String :=
  (filter_capabilities capabs acl).flatMap fun c => c.actions

/-- src/access.py:84-90 (`missing_function_capabilities`).  The required
actions are `{"READ", "WRITE"}` at the deploy call site
(src/access.py:156) and `{"WRITE"}` at the schedule call site
(src/access.py:143); Python iterates the difference as a set in arbitrary
order, here the order of `required_actions`. -/
def missing_function_capabilities (capabs : List Capability)
    (required_actions : List String) : List String :=
  let actions := aclActions capabs "functionsAcl"
  (required_actions.filter fun a => !actions.contains a).map
    fun m => "functionsAcl:" ++ m ++ " (scope: 'all')"

/-- src/access.py:93-97 (`missing_session_capabilities`). -/
def missing_session_capabilities (capabs : List Capability) : List String :=
  let actions := aclActions capabs "sessionsAcl"
  if !actions.contains "CREATE" then ["sessionsAcl:CREATE (scope: 'all')"] else []

/-- The all-scope file actions of src/access.py:102. -/
def filesAllScopeActions (capabs : List Capability) : List String :=
  (filter_capabilities capabs "filesAcl").flatMap fun c =>
    if c.is_all_scope then c.actions else []

/-- src/access.py:100-129 (`missing_files_capabilities`).  The dataset
lookup `retrieve_dataset(client, ds_id).write_protected` is a remote read,
passed in as `write_protected`.  With no dataset, files READ/WRITE must be
granted in all-scope; with a dataset, the dataset's scope is also accepted
for files, dataset READ is needed to resolve write protection, and a
write-protected dataset additionally demands OWNER. -/
def missing_files_capabilities (capabs : List Capability) (write_protected : Int → Bool)
    (ds_id : Option Int) : List String :=
  let files_capes := filter_capabilities capabs "filesAcl"
  let files_actions_all_scope := files_capes.flatMap fun c =>
    if c.is_all_scope then c.actions else []
  let missing_files_acl := ["READ", "WRITE"].filter fun a =>
    !files_actions_all_scope.contains a
  match ds_id with
  | none =>
    missing_files_acl.map fun m =>
      "filesAcl:" ++ m ++ " (scope: 'all') (Tip: consider using a data set!)"
  | some ds =>
    let files_actions_dsid_scope := files_capes.flatMap fun c =>
      if c.is_dataset_scope ds then c.actions else []
    let missing_files_acl := missing_files_acl.filter fun a =>
      !files_actions_dsid_scope.contains a
    let missing_acls := missing_files_acl.map fun m =>
      "filesAcl:" ++ m ++ " (scope: 'all' OR 'dataset: " ++ toString ds ++ "')"
    let data_set_actions := (filter_capabilities capabs "datasetsAcl").flatMap fun c =>
      if c.is_all_scope || c.is_ids_scope ds then c.actions else []
    if !data_set_actions.contains "READ" then
      missing_acls ++ ["datasetsAcl:READ (scope: 'all' OR 'id: " ++ toString ds ++ "')"] ++
        (if !data_set_actions.contains "OWNER" then
          ["(If dataset is write protected, you'll also need OWNER)"]
        else [])
    else if write_protected ds && !data_set_actions.contains "OWNER" then
      missing_acls ++
        ["datasetsAcl:OWNER (scope: 'all' OR 'id: " ++ toString ds ++
          "'). NB: 'all scope' not recommended!"]
    else missing_acls

/-- The aggregated missing list of `verify_deploy_capabilites`
(src/access.py:149-159): the functions domain and the files/datasets
domain, concatenated — no domain short-circuits another. -/
def deploy_missing (capabs : List Capability) (write_protected : Int → Bool)
    (ds_id : Option Int) : List String :=
  missing_function_capabilities capabs ["READ", "WRITE"] ++
    missing_files_capabilities capabs write_protected ds_id

/-- src/access.py:149-159 (`verify_deploy_capabilites` — the source spells
it without the second "i").  Raises one `MissingAclError` carrying the
whole aggregated list via `raise_on_missing` (src/access.py:162-166) when
anything is missing.  The basic-capability preflight
(`check_basics_and_retrieve_capabilities`) is upstream of the `capabs`
snapshot passed here. -/
def verify_deploy_capabilites (capabs : List Capability) (write_protected : Int → Bool)
    (ds_id : Option Int) : Except PyErr Unit :=
  let missing := deploy_missing capabs write_protected ds_id
  if missing.isEmpty then .ok () else .error (.missingAclError "deploy" missing)

/-- The aggregated missing list of `verify_schedule_creds_capabilities`
(src/access.py:139-146): functions WRITE and the sessions domain,
concatenated. -/
def schedule_missing (capabs : List Capability) : List String :=
  missing_function_capabilities capabs ["WRITE"] ++ missing_session_capabilities capabs

/-- src/access.py:139-146 (`verify_schedule_creds_capabilities`). -/
def verify_schedule_creds_capabilities (capabs : List Capability) : Except PyErr Unit :=
  let missing := schedule_missing capabs
  if missing.isEmpty then .ok () else .error (.missingAclError "schedule" missing)

/-! ## Deletion sequencer -/

/-- The file metadata the deletion sequencer reads back:
`client.files.retrieve` yields an id and the governing dataset id, if any
(src/function_file.py:86-95). -/
structure FileMeta where
  id : Nat
  data_set_id : Option Nat
  deriving Repr, DecidableEq

/-- The remote project state observed through the gateway: the function
resources and the code files, each keyed on external id. -/
structure CdfState where
  functions : List (String × Nat)
  files : List (String × FileMeta)
  deriving Repr, DecidableEq

/-- `retrieve(external_id=...)`: association-list lookup. -/
def lookupKey (l : List (String × β)) (x : String) : Option β :=
  (l.find? fun p => p.1 == x).map fun p => p.2

/-- A successful `delete(external_id=...)`: the keyed entry is removed. -/
def eraseKey (l : List (String × β)) (x : String) : List (String × β) :=
  l.filter fun p => !(p.1 == x)

/-- src/function.py:88-95 (`delete_function`).  Retrieve by external id;
delete when found, log-and-return when not — absence raises nothing. -/
def delete_function (s : CdfState) (external_id : String) : CdfState :=
  match lookupKey s.functions external_id with
  | some _ => { s with functions := eraseKey s.functions external_id }
  | none => s

/-- src/function_file.py:85-102 (`delete_function_file`).  `api_failure`
is the `CogniteAPIError` the remote `files.delete` call raises at this
moment, if any (`none` = the call succeeds).  A missing file logs and
returns; a failed delete of a dataset-governed file (`data_set_id` set)
logs the error and returns normally; a failed delete of an ungoverned
file re-raises immediately. -/
def delete_function_file (s : CdfState) (xid : String) (api_failure : Option String) :
    Except PyErr CdfState :=
  match lookupKey s.files xid with
  | none => .ok s
  | some file_meta =>
    match api_failure with
    | none => .ok { s with files := eraseKey s.files xid }
    | some m =>
      match file_meta.data_set_id with
      | none => .error (.cogniteAPIError m)
      | some _ => .ok s

/-! ## Schedule-file parsing (src/configs.py) -/

/-- One entry of the schedule YAML file as `yaml.safe_load` hands it to
`FunctionSchedule.parse_obj` (src/configs.py:54-64,172): raw, unvalidated
fields; the alias `cron` feeds `cron_expression`. -/
structure RawFunctionSchedule where
  name : Option String
  description : Option String
  cron : Option String
  data : Option String
  deriving Repr, DecidableEq

/-- src/configs.py:54-64 (`FunctionSchedule`), after validation. -/
structure FunctionSchedule where
  name : String
  description : Option String
  cron_expression : String
  data : Option String
  deriving Repr, DecidableEq

/-- `FunctionSchedule.parse_obj` (src/configs.py:54-64): pydantic requires
`name` and `cron`, and the `validate_cron` validator rejects a cron
expression that `CronSlices.is_valid` (an external library, passed in as
`cron_valid`) does not accept.  A failure is a raised `ValidationError`. -/
def parse_function_schedule (cron_valid : String → Bool) (r : RawFunctionSchedule) :
    Except PyErr FunctionSchedule :=
  match r.name, r.cron with
  | some nm, some cr =>
    if cron_valid cr then .ok ⟨nm, r.description, cr, r.data⟩
    else .error (.validationError ("Invalid cron expression: '" ++ cr ++ "'"))
  | _, _ => .error (.validationError "field required")

/-- What `yaml.safe_load` does with the schedule file's contents:
`parseFailure` models a raised `yaml.YAMLError` (malformed YAML);
`loaded l` a successful load, where `l = []` stands for a load that is
falsy in Python (an empty file loads as `None`, `[]` as the empty list). -/
inductive YamlLoad where
  | parseFailure (msg : String)
  | loaded (entries : List RawFunctionSchedule)
  deriving Repr, DecidableEq

/-- The outcome of the `verify_schedule_file_and_parse` validator: the
(possibly cleared) `schedule_file` value, the parsed `schedules`, and the
warnings logged on the way. -/
structure ScheduleParseOutcome where
  schedule_file : Option String
  schedules : List FunctionSchedule
  warnings : List String
  deriving Repr, DecidableEq

/-- src/configs.py:163-178 (`SchedulesConfig.verify_schedule_file_and_parse`).
`file_exists f` models `(function_folder / f).is_file()`; `load f` the
`yaml.safe_load` of the opened file (see `YamlLoad`).  No `schedule_file`
given means no schedules; a configured file that does not exist, or that
loads as empty, is logged as a warning and cleared (the warning text here
drops the absolute path the source interpolates).  A `yaml.YAMLError`
raised by `safe_load`, or a `ValidationError` out of
`FunctionSchedule.parse_obj`, is caught nowhere in the validator and
propagates, failing configuration validation. -/
def verify_schedule_file_and_parse (file_exists : String → Bool) (load : String → YamlLoad)
    (cron_valid : String → Bool) (schedule_file : Option String) :
    Except PyErr ScheduleParseOutcome :=
  match schedule_file with
  | none => .ok ⟨none, [], []⟩
  | some f =>
    if file_exists f then
      match load f with
      | .parseFailure m => .error (.yamlError m)
      | .loaded [] =>
        .ok ⟨none, [], ["Given schedule file '" ++ f ++ "' appears empty and was ignored"]⟩
      | .loaded (e :: rest) =>
        match (e :: rest).mapM (parse_function_schedule cron_valid) with
        | .ok parsed => .ok ⟨some f, parsed, []⟩
        | .error err => .error err
    else
      .ok ⟨none, [],
        ["Ignoring given schedule file '" ++ f ++ "', path does not exist"]⟩

/-! ## The temporary working-directory change (src/utils.py:29-36) -/

/-- The process state as `temporary_chdir` sees it: the working directory
(`os.getcwd()` / `os.chdir`) and everything else the enclosed block may
touch, abstracted as `rest`. -/
structure ProcState (σ : Type) where
  cwd : String
  rest : σ
  deriving Repr, DecidableEq

/-- src/utils.py:29-36 (`temporary_chdir`).  `chdir_ok p` models whether
`os.chdir(p)` succeeds (a bad path raises `OSError` before the `try`, so
nothing was changed and nothing is restored).  `body` is the computation
the `with` block encloses: it transforms the process state and either
returns a value or raises.  The `finally` clause runs `os.chdir(old_path)`
on every exit — the body's exception, if any, continues to propagate. -/
def temporary_chdir (chdir_ok : String → Bool) (path : String)
    (body : ProcState σ → Except PyErr α × ProcState σ) (s : ProcState σ) :
    Except PyErr α × ProcState σ :=
  let old_path := s.cwd
  if chdir_ok path then
    match body { s with cwd := path } with
    | (r, s2) => (r, { s2 with cwd := old_path })
  else (.error (.osError ("No such file or directory: '" ++ path ++ "'")), s)

/-! ## Awaiting deployment -/

/-- The remote function resource as one poll observes it: the reported
status string, and the error message and trace it carries when the status
is `Failed`. -/
structure RemoteFunction where
  status : String
  error_message : String
  error_trace : String
  deriving Repr, DecidableEq

/-- What one run of the deployment await produces: the returned function
or the raised exception, and how many times the best-effort cancellation
delete of the half-created function was attempted on the way. -/
structure AwaitOutcome where
  result : Except PyErr RemoteFunction
  delete_attempts : Nat
  deriving Repr

/-- Modelled from the spec: the final `function.py` — whose two-argument
`await_function_deployment` the orchestrator calls at
src/orchestrator.py:31 — is missing from the sources; only its caller and
an older three-argument snapshot (src/function.py:54-76, which has no
cancellation step) are present.  Per the spec (section 4.5 and testable
property 4): poll the remote status every 5 seconds while the time budget
lasts; on `Ready` return the function; on `Failed` raise
`FunctionDeployError` carrying the remote message and trace verbatim; on
exceeding the timeout budget, attempt one best-effort delete of the
half-created function — a failure of that delete is swallowed — and raise
`FunctionDeployTimeout`.  `polls k` is the function as the k-th poll sees
it; `delete_fails` says whether the cancellation delete would raise
(swallowed either way, so it cannot influence the outcome); `fuel` is the
number of polls the budget still allows. -/
def await_poll (polls : Nat → RemoteFunction) (delete_fails : Bool) :
    Nat → Nat → AwaitOutcome
  | 0, _ =>
    { result := .error (.functionDeployTimeout
        "Function did not deploy within the given timeout!"),
      delete_attempts := 1 }
  | fuel + 1, k =>
    let fn := polls k
    if fn.status = "Ready" then { result := .ok fn, delete_attempts := 0 }
    else if fn.status = "Failed" then
      { result := .error (.functionDeployError
          ("Error message: " ++ fn.error_message ++ ".\nTrace: " ++ fn.error_trace)),
        delete_attempts := 0 }
    else await_poll polls delete_fails fuel (k + 1)

/-- Modelled from the spec (see `await_poll`): the await loop enters with
`t0 = time.time()` and the guard `time.time() <= t0 + wait`, sleeping 5
seconds per iteration, so a budget of `wait` seconds admits
`wait / 5 + 1` polls. -/
def await_function_deployment (polls : Nat → RemoteFunction) (delete_fails : Bool)
    (function_deploy_timeout : Nat) : AwaitOutcome :=
  await_poll polls delete_fails (function_deploy_timeout / 5 + 1) 0

/-! ## Helper lemmas -/

/-- Looking a key up after erasing it finds nothing. -/
theorem lookupKey_eraseKey (l : List (String × β)) (x : String) :
    lookupKey (eraseKey l x) x = none := by
  simp only [lookupKey, eraseKey, Option.map_eq_none', List.find?_eq_none]
  intro p hp
  have h := List.of_mem_filter hp
  simpa using h

/-- A run of attempts that all raise retried exceptions ends, after the
tries are exhausted, with the last attempt's own exception. -/
theorem retryLoop_all_retryable (f : Nat → Except PyErr α) (p : PyErr → Bool)
    (e : Nat → PyErr) (hf : ∀ k, f k = .error (e k)) (hp : ∀ k, p (e k) = true) :
    ∀ n k, retryLoop f p (n + 1) k = some (.error (e (k + n))) := by
  intro n
  induction n with
  | zero => intro k; simp [retryLoop, hf k, hp k]
  | succ n ih =>
    intro k
    have step : retryLoop f p (n + 1 + 1) k = retryLoop f p (n + 1) (k + 1) := by
      simp [retryLoop, hf k, hp k]
    rw [step, ih (k + 1)]
    have harg : k + 1 + n = k + (n + 1) := by omega
    rw [harg]

/-- A poll sequence that never reports a terminal status runs every run of
the await loop into the timeout branch. -/
theorem await_poll_nonterminal (polls : Nat → RemoteFunction) (df : Bool)
    (h : ∀ k, (polls k).status ≠ "Ready" ∧ (polls k).status ≠ "Failed") :
    ∀ fuel k, await_poll polls df fuel k =
      { result := .error (.functionDeployTimeout
          "Function did not deploy within the given timeout!"),
        delete_attempts := 1 } := by
  intro fuel
  induction fuel with
  | zero => intro k; rfl
  | succ n ih =>
    intro k
    have hr := (h k).1
    have hfl := (h k).2
    simpa [await_poll, hr, hfl] using ih (k + 1)

/-! ## Claim theorems -/

/-- C10: the artifact-name derivation (`create_zipfile_name`,
src/utils.py:39-40, and the identical `get_file_name`,
src/function.py:215-216) maps an external id to the id with every forward
slash replaced by a hyphen, suffixed `.zip`.  The map is not injective:
the distinct external ids `a/b` and `a-b` both derive the artifact name
`a-b.zip`, so two different functions share — and overwrite — one code
file. -/
theorem artifact_name_derivation_collides :
    get_file_name = create_zipfile_name ∧
    create_zipfile_name "a/b" = "a-b.zip" ∧
    create_zipfile_name "a-b" = "a-b.zip" ∧
    ("a/b" : String) ≠ "a-b" :=
  ⟨rfl, by decide, by decide, by decide⟩

/-- C4 (evaluation at the failing inputs): the entry-file pattern that is
in the sources (`FnFileString`, src/utils.py:26, regex
`^[\w\- ]+\.(py|js)$`) accepts `baz.py` but rejects every name containing
a path separator — including `home/user0/baz.py`, which the repository's
own test (src/tests/unit/test_utils.py, `test_function_file_regex`)
asserts is accepted, and the claim's `home/user/baz.py` and
`home/user_foo/bar-baz.py`.  The pattern the tests (and the spec) demand
allows `/`-separated segments; the shipped pattern does not, so the code
contradicts its own test suite. -/
theorem entry_file_pattern_rejects_subdirectory_paths :
    fnFileStringMatches "baz.py" = true ∧
    fnFileStringMatches "home/user0/baz.py" = false ∧
    fnFileStringMatches "home/user/baz.py" = false ∧
    fnFileStringMatches "home/user_foo/bar-baz.py" = false ∧
    fnFileStringMatches "/home/user/foo.py" = false ∧
    fnFileStringMatches "\\home\\user\\bar.py" = false ∧
    fnFileStringMatches "/.py" = false := by decide

/-- C7: the name-scoping transform of `FunctionConfig.schedules`
(src/config.py:175-189) prefixes every schedule name with the function's
external id and a colon, so two schedules carrying the same file-given
name (for example `daily`) under two distinct function external ids get
distinct effective names: the prefix differs and string append is
right-cancellative. -/
theorem scoped_schedule_names_distinct (xid1 xid2 nm : String) (i1 i2 : Nat)
    (s1 s2 : RawSchedule) (hx : xid1 ≠ xid2)
    (h1 : s1.name = some nm) (h2 : s2.name = some nm) :
    scoped_schedule_name xid1 i1 s1 ≠ scoped_schedule_name xid2 i2 s2 := by
  unfold scoped_schedule_name
  rw [h1, h2]
  simp only [Option.getD_some]
  intro he
  apply hx
  have hd := congrArg String.data he
  simp at hd
  exact String.ext hd

/-- Witness for C7 at the claim's instance: two functions `fn-a` and
`fn-b` each scheduling `daily`. -/
theorem scoped_schedule_names_distinct_witness :
    ("fn-a" : String) ≠ "fn-b" ∧
    scoped_schedule_name "fn-a" 0 ⟨some "daily", some "0 8 * * *", none⟩ ≠
      scoped_schedule_name "fn-b" 0 ⟨some "daily", some "0 8 * * *", none⟩ :=
  ⟨by decide,
    scoped_schedule_names_distinct "fn-a" "fn-b" "daily" 0 0 _ _ (by decide) rfl rfl⟩

/-- C9: whenever the working-directory change of `temporary_chdir`
(src/utils.py:29-36) takes place, the working directory is restored to
its prior value on exit — the enclosed block may itself move around and
may raise, the `finally` clause restores either way — and the context
manager alters nothing else: the result (value or exception) and every
other component of the process state are exactly what the enclosed block
produced. -/
theorem temporary_chdir_restores_cwd (σ α : Type) (chdir_ok : String → Bool)
    (path : String) (body : ProcState σ → Except PyErr α × ProcState σ)
    (s : ProcState σ) (hok : chdir_ok path = true) :
    (temporary_chdir chdir_ok path body s).2.cwd = s.cwd ∧
    (temporary_chdir chdir_ok path body s).1 = (body { s with cwd := path }).1 ∧
    (temporary_chdir chdir_ok path body s).2.rest = (body { s with cwd := path }).2.rest := by
  unfold temporary_chdir
  rw [hok]
  simp

/-- Witness for C9: an enclosed block that changes the directory to
`/elsewhere`, changes the rest of the state, and raises; the manager
still restores `/start`, keeps the block's state change, and lets the
exception through. -/
theorem temporary_chdir_restores_cwd_witness :
    ((fun _ => true) "inner" : Bool) = true ∧
    (temporary_chdir (fun _ => true) "inner"
        (fun st => ((.error (.osError "boom") : Except PyErr Unit),
          { st with cwd := "/elsewhere", rest := 99 }))
        (⟨"/start", 7⟩ : ProcState Nat)).2.cwd = "/start" :=
  ⟨rfl,
    (temporary_chdir_restores_cwd Nat Unit (fun _ => true) "inner"
      (fun st => (.error (.osError "boom"), { st with cwd := "/elsewhere", rest := 99 }))
      ⟨"/start", 7⟩ rfl).1⟩

/-- C5: the deletion sequencer is silent on absence and idempotent.  For
every external id, `delete_function` (src/function.py:88-95) on a state
without that function, and `delete_function_file`
(src/function_file.py:85-102) on a state without that file, return
normally and leave the state untouched (whatever the remote delete call
would have done, since it is never reached); and running either delete
twice in a row — the file delete with the remote call succeeding — has
exactly the outcome of running it once. -/
theorem delete_silent_and_idempotent (s : CdfState) (x : String)
    (api_failure : Option String)
    (hfn : lookupKey s.functions x = none) (hfile : lookupKey s.files x = none) :
    delete_function s x = s ∧
    delete_function_file s x api_failure = .ok s ∧
    (∀ t : CdfState, delete_function (delete_function t x) x = delete_function t x) ∧
    (∀ t : CdfState,
      (delete_function_file t x none).bind (fun u => delete_function_file u x none) =
        delete_function_file t x none) := by
  refine ⟨?_, ?_, ?_, ?_⟩
  · simp [delete_function, hfn]
  · simp [delete_function_file, hfile]
  · intro t
    unfold delete_function
    cases h : lookupKey t.functions x with
    | none => simp [h]
    | some v => simp [lookupKey_eraseKey]
  · intro t
    unfold delete_function_file
    cases h : lookupKey t.files x with
    | none => simp [Except.bind, h]
    | some meta => simp [Except.bind, lookupKey_eraseKey]

/-- Witness for C5 on a concrete state holding neither the function nor
the file `ghost`. -/
theorem delete_silent_and_idempotent_witness :
    lookupKey (CdfState.functions ⟨[("live", 1)], [("live.zip", ⟨5, none⟩)]⟩) "ghost" = none ∧
    delete_function ⟨[("live", 1)], [("live.zip", ⟨5, none⟩)]⟩ "ghost" =
      ⟨[("live", 1)], [("live.zip", ⟨5, none⟩)]⟩ :=
  ⟨by decide,
    (delete_silent_and_idempotent ⟨[("live", 1)], [("live.zip", ⟨5, none⟩)]⟩ "ghost" none
      (by decide) (by decide)).1⟩

/-- C6: when the remote `files.delete` call fails on an existing code
file (src/function_file.py:91-102), the failure is swallowed and the
operation returns normally exactly when the file is governed by a dataset
(`data_set_id` set); on an ungoverned file the same failure re-raises to
the caller. -/
theorem governed_file_delete_failure_swallowed (s : CdfState) (x : String)
    (meta : FileMeta) (m : String) (h : lookupKey s.files x = some meta) :
    delete_function_file s x (some m) =
      if meta.data_set_id.isSome then .ok s else .error (.cogniteAPIError m) := by
  unfold delete_function_file
  rw [h]
  cases hd : meta.data_set_id <;> simp [hd]

/-- Witness for C6: a dataset-governed file whose remote delete fails;
the operation still returns the state unchanged. -/
theorem governed_file_delete_failure_swallowed_witness :
    lookupKey (CdfState.files ⟨[], [("f.zip", ⟨5, some 42⟩)]⟩) "f.zip" = some ⟨5, some 42⟩ ∧
    delete_function_file ⟨[], [("f.zip", ⟨5, some 42⟩)]⟩ "f.zip" (some "forbidden") =
      .ok ⟨[], [("f.zip", ⟨5, some 42⟩)]⟩ :=
  ⟨by decide,
    by
      have h := governed_file_delete_failure_swallowed ⟨[], [("f.zip", ⟨5, some 42⟩)]⟩
        "f.zip" ⟨5, some 42⟩ "forbidden" (by decide)
      simpa using h⟩

/-- Counterexample for C8: a schedule file that exists but fails to parse
(`yaml.safe_load` raises) is NOT treated as "no schedules" —
`verify_schedule_file_and_parse` (src/configs.py:163-178) catches nothing,
so the `YAMLError` propagates and configuration validation fails instead
of yielding an empty schedule list with a warning. -/
theorem schedule_parse_failure_is_fatal :
    verify_schedule_file_and_parse (fun _ => true)
      (fun _ => .parseFailure "mapping values are not allowed here")
      (fun _ => true) (some "schedules.yml") =
      .error (.yamlError "mapping values are not allowed here") := rfl

/-- C8 as amended: no configured schedule file, a configured file that
does not exist, and a file that loads as empty are each treated as "no
schedules" (empty list, validation passes, the latter two with a logged
warning); but a file that fails to parse raises and fails configuration
validation. -/
theorem schedule_file_missing_or_empty_is_no_schedules
    (fe_missing fe_present : String → Bool) (load load_empty load_bad : String → YamlLoad)
    (cron_valid : String → Bool) (f m : String)
    (h1 : fe_missing f = false) (h2 : fe_present f = true)
    (h3 : load_empty f = .loaded []) (h4 : load_bad f = .parseFailure m) :
    verify_schedule_file_and_parse fe_missing load cron_valid none = .ok ⟨none, [], []⟩ ∧
    verify_schedule_file_and_parse fe_missing load cron_valid (some f) =
      .ok ⟨none, [], ["Ignoring given schedule file '" ++ f ++ "', path does not exist"]⟩ ∧
    verify_schedule_file_and_parse fe_present load_empty cron_valid (some f) =
      .ok ⟨none, [], ["Given schedule file '" ++ f ++ "' appears empty and was ignored"]⟩ ∧
    verify_schedule_file_and_parse fe_present load_bad cron_valid (some f) =
      .error (.yamlError m) := by
  refine ⟨rfl, ?_, ?_, ?_⟩ <;>
    simp [verify_schedule_file_and_parse, h1, h2, h3, h4]

/-- Witness for C8 (amended) at concrete inputs: the file `s.yml` does
not exist, so the outcome is the empty schedule list with the warning. -/
theorem schedule_file_missing_or_empty_is_no_schedules_witness :
    ((fun _ => false) "s.yml" : Bool) = false ∧
    verify_schedule_file_and_parse (fun _ => false)
        (fun _ => .loaded []) (fun _ => true) (some "s.yml") =
      .ok ⟨none, [], ["Ignoring given schedule file 's.yml', path does not exist"]⟩ :=
  ⟨rfl,
    by
      have h := schedule_file_missing_or_empty_is_no_schedules
        (fun _ => false) (fun _ => true) (fun _ => .loaded []) (fun _ => .loaded [])
        (fun _ => .parseFailure "x") (fun _ => true) "s.yml" "x" rfl rfl rfl rfl
      simpa using h.2.1⟩

/-- Equality of verifier outcomes is decidable (needed to evaluate the
verifiers on concrete snapshots). -/
instance : DecidableEq (Except PyErr Unit) := fun a b =>
  match a, b with
  | .ok x, .ok y => isTrue (by cases x; cases y; rfl)
  | .error e1, .error e2 => decidable_of_iff (e1 = e2) (by simp)
  | .ok _, .error _ => isFalse (by simp)
  | .error _, .ok _ => isFalse (by simp)

/-- A capability snapshot with functions READ/WRITE and files READ in
all-scope, but neither files WRITE nor any sessions capability: the
snapshot of claim C3, missing both `files:WRITE` (all-scope) and
`sessions:CREATE`. -/
def capsMissingFilesWriteAndSessionsCreate : List Capability :=
  [⟨"functionsAcl", ["READ", "WRITE"], ⟨true, [], []⟩⟩,
   ⟨"filesAcl", ["READ"], ⟨true, [], []⟩⟩]

/-- Counterexample for C3: on a snapshot missing both `files:WRITE`
(all-scope) and `sessions:CREATE`, no single raised error lists both
items.  The files domain is checked only by `verify_deploy_capabilites`
(src/access.py:149-159), whose one error lists the files item and
nothing about sessions, and the sessions domain only by
`verify_schedule_creds_capabilities` (src/access.py:139-146), whose one
error lists the sessions item and nothing about files — the two checked
domains are split across two verifiers rather than aggregated into one
error. -/
theorem capability_error_split_across_verifiers :
    deploy_missing capsMissingFilesWriteAndSessionsCreate (fun _ => false) none =
      ["filesAcl:WRITE (scope: 'all') (Tip: consider using a data set!)"] ∧
    schedule_missing capsMissingFilesWriteAndSessionsCreate =
      ["sessionsAcl:CREATE (scope: 'all')"] ∧
    verify_deploy_capabilites capsMissingFilesWriteAndSessionsCreate (fun _ => false) none =
      .error (.missingAclError "deploy"
        ["filesAcl:WRITE (scope: 'all') (Tip: consider using a data set!)"]) ∧
    verify_schedule_creds_capabilities capsMissingFilesWriteAndSessionsCreate =
      .error (.missingAclError "schedule" ["sessionsAcl:CREATE (scope: 'all')"]) ∧
    "sessionsAcl:CREATE (scope: 'all')" ∉
      deploy_missing capsMissingFilesWriteAndSessionsCreate (fun _ => false) none ∧
    "filesAcl:WRITE (scope: 'all') (Tip: consider using a data set!)" ∉
      schedule_missing capsMissingFilesWriteAndSessionsCreate := by decide

/-- C3 as amended: each verifier aggregates every missing item across the
domains it checks into the one error it raises, never only the first
encountered — `verify_deploy_capabilites` itemizes all missing
functions-domain and files-domain grants in a single `MissingAclError`
carrying the full concatenated list, and
`verify_schedule_creds_capabilities` does the same for the
functions:WRITE and sessions domains; but `files:WRITE` and
`sessions:CREATE` belong to different verifiers, so they are itemized in
the errors of those two separate calls, not in one combined error. -/
theorem capability_missing_items_aggregated (capabs : List Capability)
    (write_protected : Int → Bool)
    (hfw : (filesAllScopeActions capabs).contains "WRITE" = false)
    (hfnw : (aclActions capabs "functionsAcl").contains "WRITE" = false)
    (hsc : (aclActions capabs "sessionsAcl").contains "CREATE" = false) :
    "filesAcl:WRITE (scope: 'all') (Tip: consider using a data set!)" ∈
      deploy_missing capabs write_protected none ∧
    "functionsAcl:WRITE (scope: 'all')" ∈ deploy_missing capabs write_protected none ∧
    "functionsAcl:WRITE (scope: 'all')" ∈ schedule_missing capabs ∧
    "sessionsAcl:CREATE (scope: 'all')" ∈ schedule_missing capabs ∧
    verify_deploy_capabilites capabs write_protected none =
      .error (.missingAclError "deploy" (deploy_missing capabs write_protected none)) ∧
    verify_schedule_creds_capabilities capabs =
      .error (.missingAclError "schedule" (schedule_missing capabs)) := by
  have hfilesmem : "filesAcl:WRITE (scope: 'all') (Tip: consider using a data set!)" ∈
      missing_files_capabilities capabs write_protected none := by
    unfold missing_files_capabilities
    simp only [List.mem_map]
    refine ⟨"WRITE", ?_, rfl⟩
    simp only [List.mem_filter]
    refine ⟨by simp, ?_⟩
    simpa [filesAllScopeActions, filter_capabilities, Capability.is_all_scope] using hfw
  have hfnmem : ∀ req : List String, "WRITE" ∈ req →
      "functionsAcl:WRITE (scope: 'all')" ∈ missing_function_capabilities capabs req := by
    intro req hreq
    unfold missing_function_capabilities
    simp only [List.mem_map]
    refine ⟨"WRITE", ?_, rfl⟩
    simp only [List.mem_filter]
    exact ⟨hreq, by simpa using hfnw⟩
  have hscmem : "sessionsAcl:CREATE (scope: 'all')" ∈ missing_session_capabilities capabs := by
    have hsc' : "CREATE" ∉ aclActions capabs "sessionsAcl" := by simpa using hsc
    unfold missing_session_capabilities
    simp [hsc']
  have hdm : "filesAcl:WRITE (scope: 'all') (Tip: consider using a data set!)" ∈
      deploy_missing capabs write_protected none := by
    unfold deploy_missing
    exact List.mem_append_right _ hfilesmem
  have hsm : "sessionsAcl:CREATE (scope: 'all')" ∈ schedule_missing capabs := by
    unfold schedule_missing
    exact List.mem_append_right _ hscmem
  have hdm_ne : deploy_missing capabs write_protected none ≠ [] := by
    intro hnil
    rw [hnil] at hdm
    exact (List.not_mem_nil _) hdm
  have hsm_ne : schedule_missing capabs ≠ [] := by
    intro hnil
    rw [hnil] at hsm
    exact (List.not_mem_nil _) hsm
  refine ⟨hdm, ?_, ?_, hsm, ?_, ?_⟩
  · unfold deploy_missing
    exact List.mem_append_left _ (hfnmem ["READ", "WRITE"] (by simp))
  · unfold schedule_missing
    exact List.mem_append_left _ (hfnmem ["WRITE"] (by simp))
  · unfold verify_deploy_capabilites
    simp [List.isEmpty_iff, hdm_ne]
  · unfold verify_schedule_creds_capabilities
    simp [List.isEmpty_iff, hsm_ne]

/-- Witness for C3 (amended) on the concrete snapshot missing
functions:WRITE, files:WRITE and sessions:CREATE. -/
theorem capability_missing_items_aggregated_witness :
    (filesAllScopeActions [⟨"filesAcl", ["READ"], ⟨true, [], []⟩⟩]).contains "WRITE" = false ∧
    "filesAcl:WRITE (scope: 'all') (Tip: consider using a data set!)" ∈
      deploy_missing [⟨"filesAcl", ["READ"], ⟨true, [], []⟩⟩] (fun _ => false) none :=
  ⟨by decide,
    (capability_missing_items_aggregated [⟨"filesAcl", ["READ"], ⟨true, [], []⟩⟩]
      (fun _ => false) (by decide) (by decide) (by decide)).1⟩

/-- C2: the retry boundary around the whole
delete-package-upload-create-await sequence
(src/orchestrator.py:22-36 with src/utils.py:96-112 and the
creation-error conversion of src/function.py:205-212).  An attempt that
fails with a remote error whose message marks a duplicated external id is
converted to `FunctionDeployError` and retried; after the configured
tries are exhausted, the error raised is the (converted) error of the
last attempt itself — the loop's bare `raise`, no wrapper.  An attempt
that fails with a permission error (`MissingAclError`) or with any other
remote error is not retried: the first attempt's own error propagates at
once, unconverted and unwrapped. -/
theorem retry_boundary_behavior (α : Type) (rawDup rawAcl rawApi : Nat → Except PyErr α)
    (n : Nat) (msg : Nat → String) (cred : String) (missing : List String) (other : String)
    (hn : 1 ≤ n)
    (hdup : ∀ k, rawDup k = .error (.cogniteAPIError (msg k)))
    (hdupmsg : ∀ k, strContains (msg k) duplicatedMessage = true)
    (hacl : rawAcl 0 = .error (.missingAclError cred missing))
    (hapi : rawApi 0 = .error (.cogniteAPIError other))
    (hnot : strContains other duplicatedMessage = false) :
    upload_and_create_function rawDup n = some (.error (.functionDeployError (msg (n - 1)))) ∧
    upload_and_create_function rawAcl n = some (.error (.missingAclError cred missing)) ∧
    upload_and_create_function rawApi n = some (.error (.cogniteAPIError other)) := by
  obtain ⟨t, rfl⟩ : ∃ t, n = t + 1 := ⟨n - 1, by omega⟩
  refine ⟨?_, ?_, ?_⟩
  · unfold upload_and_create_function
    have hr := retryLoop_all_retryable
      (fun k => match rawDup k with
        | .ok a => .ok a
        | .error e => .error (convert_creation_error e))
      isFunctionDeployError (fun k => .functionDeployError (msg k))
      (fun k => by simp [hdup k, convert_creation_error, hdupmsg k])
      (fun k => rfl) t 0
    simpa using hr
  · unfold upload_and_create_function retryLoop
    simp [hacl, convert_creation_error, isFunctionDeployError]
  · unfold upload_and_create_function retryLoop
    simp [hapi, convert_creation_error, hnot, isFunctionDeployError]

/-- Witness for C2 with the orchestrator's configured `tries=2`
(src/orchestrator.py:22): every attempt hits the duplicated-external-id
race; after both tries the raised error is the converted
`FunctionDeployError` carrying the remote message. -/
theorem retry_boundary_behavior_witness :
    1 ≤ 2 ∧
    upload_and_create_function
        (fun _ => (.error (.cogniteAPIError "Function externalId duplicated.") : Except PyErr Nat)) 2 =
      some (.error (.functionDeployError "Function externalId duplicated.")) :=
  ⟨by decide,
    (retry_boundary_behavior Nat
      (fun _ => .error (.cogniteAPIError "Function externalId duplicated."))
      (fun _ => .error (.missingAclError "deploy" []))
      (fun _ => .error (.cogniteAPIError "503"))
      2 (fun _ => "Function externalId duplicated.") "deploy" [] "503"
      (by decide) (fun _ => rfl)
      (fun _ => by
        show strContains "Function externalId duplicated." duplicatedMessage = true
        decide)
      rfl rfl (by decide)).1⟩

/-- C1: for every poll sequence whose remote status never becomes
terminal (neither `Ready` nor `Failed`) within the timeout budget,
`await_function_deployment` (modelled from the spec, see `await_poll`)
ends in exactly one raised deploy-timeout error — the single
`FunctionDeployTimeout` value of the outcome — having attempted the
best-effort cancellation delete of the half-created function exactly
once; and whether that cancellation delete itself fails is swallowed: the
outcome is identical for a failing and a succeeding delete, so the
timeout error is the one surfaced either way. -/
theorem deploy_timeout_cancels_and_raises_once (polls : Nat → RemoteFunction)
    (df : Bool) (timeout : Nat)
    (h : ∀ k, (polls k).status ≠ "Ready" ∧ (polls k).status ≠ "Failed") :
    (await_function_deployment polls df timeout).result =
      .error (.functionDeployTimeout "Function did not deploy within the given timeout!") ∧
    (await_function_deployment polls df timeout).delete_attempts = 1 ∧
    await_function_deployment polls true timeout =
      await_function_deployment polls false timeout := by
  unfold await_function_deployment
  rw [await_poll_nonterminal polls df h, await_poll_nonterminal polls true h,
    await_poll_nonterminal polls false h]
  exact ⟨rfl, rfl, rfl⟩

/-- Witness for C1: a function stuck in `Deploying` forever, with a
failing cancellation delete and a 20-second budget. -/
theorem deploy_timeout_cancels_and_raises_once_witness :
    (((fun _ => ⟨"Deploying", "", ""⟩ : Nat → RemoteFunction) 0).status ≠ "Ready") ∧
    (await_function_deployment (fun _ => ⟨"Deploying", "", ""⟩) true 20).delete_attempts = 1 :=
  ⟨by decide,
    (deploy_timeout_cancels_and_raises_once (fun _ => ⟨"Deploying", "", ""⟩) true 20
      (fun _ => ⟨by show ("Deploying" : String) ≠ "Ready"; decide,
        by show ("Deploying" : String) ≠ "Failed"; decide⟩)).2.1⟩

end FnAction
